import Mathlib

/-!
Verification of the disk-enumeration, metadata-fetch, provider-detection and
io-preset-resolution core of scylla-machine-image, shallowly embedded from
`lib/scylla_cloud.py` and the io-setup modules.

Conventions of the embedding:
* Python functions that can `raise` are modelled as `Except String`-valued
  functions; functions without a raise site return `.ok` on every input.
* OS observations (psutil.disk_partitions(), os.listdir("/dev"),
  glob.glob("/dev/sd*"), /sys model attribute files, findmnt output,
  os.path.realpath of the Azure swap symlink) are explicit inputs.
* Python integers are `Nat`/`Int` (arbitrary precision, no overflow).
-/

/-- One entry of `psutil.disk_partitions()`: a mounted partition. -/
structure DiskPartition where
  device : String
  mountpoint : String
deriving DecidableEq

/-- Longest leading run of decimal digits of a character list, and the rest. -/
def digitSpan : List Char → List Char × List Char
  | [] => ([], [])
  | c :: cs =>
    if c.isDigit then
      let p := digitSpan cs
      (c :: p.1, p.2)
    else ([], c :: cs)

/-- Full-string reading of the anchored regex `nvme\d+n\d+$` under `re.match`
(used by the GCP/Azure/OCI `_non_root_nvmes` and, with a group, by
`AwsInstance.__filter_nvmes`).  Because `\d+` is a digit run and the separator
`n` is not a digit, the regex matches exactly the strings of shape
`nvme<digits>n<digits>`; on a match we return group 1, `nvme<digits>`. -/
def nvmeNameSpan : List Char → Option (List Char)
  | 'n' :: 'v' :: 'm' :: 'e' :: rest =>
    match digitSpan rest with
    | ([], _) => none
    | (ds, 'n' :: rest2) =>
      match digitSpan rest2 with
      | ([], _) => none
      | (_, _ :: _) => none
      | (_, []) => some ('n' :: 'v' :: 'm' :: 'e' :: ds)
    | (_, _) => none
  | _ => none

/-- `re.match(r"nvme\d+n\d+$", x)` as a Bool. -/
def nvmeMatches (s : String) : Bool := (nvmeNameSpan s.data).isSome

/-- Group 1 of `re.match(r"(nvme\d+)n\d+$", dev)` (AwsInstance.__filter_nvmes). -/
def nvmeController (s : String) : Option String :=
  (nvmeNameSpan s.data).map (fun cs => String.mk cs)

/-- `is_in_root_devs` shared by the GCP/Azure/OCI variants:
`any(root_dev.startswith(os.path.join("/dev/", x)) for root_dev in root_devs)`.
For the bare device names this is applied to, `os.path.join("/dev/", x)`
is plain concatenation `"/dev/" + x`. -/
def is_in_root_devs (x : String) (root_devs : List String) : Bool :=
  root_devs.any (fun root_dev => ("/dev/" ++ x).data.isPrefixOf root_dev.data)

/-- Devices of the partitions mounted at `/`
(`root_dev_candidates` followed by `root_devs` in the source). -/
def rootDevs (parts : List DiskPartition) : List String :=
  (parts.filter (fun x => x.mountpoint == "/")).map (fun x => x.device)

/-- Full-string reading of the anchored regex `/dev/sd[b-z]+$` under `re.match`
(`disk_re` of the `_non_root_disks` variants): `/dev/sd` followed by a
non-empty run of letters in `b..z`. -/
def sdDiskMatches (s : String) : Bool :=
  match s.data with
  | '/' :: 'd' :: 'e' :: 'v' :: '/' :: 's' :: 'd' :: rest =>
    !rest.isEmpty && rest.all (fun c => 'b' ≤ c && c ≤ 'z')
  | _ => false

/-- `x.removeprefix("/dev/")`. -/
def stripDev (s : String) : String :=
  if "/dev/".data.isPrefixOf s.data then String.mk (s.data.drop 5) else s

/-- The `{root, ephemeral}` dictionary returned by the GCP/Azure/OCI
`_non_root_nvmes`. -/
structure NvmeBuckets where
  root : List String
  ephemeral : List String
deriving DecidableEq

/-- `GcpInstance._non_root_nvmes`.  The function has no raise site (in
particular it does not check the number of root partitions), so it returns
`.ok` on every input; the `Except` wrapper only keeps its shape aligned with
the Azure/AWS variants, which can raise. -/
def gcp_non_root_nvmes (parts : List DiskPartition) (devListing : List String) :
    Except String NvmeBuckets :=
  let root_devs := rootDevs parts
  let nvmes_present := devListing.filter nvmeMatches
  .ok { root := root_devs
      , ephemeral := nvmes_present.filter (fun x => !is_in_root_devs x root_devs) }

/-- `GcpInstance._non_root_disks`: the `persistent` bucket.  `sdGlob` models
`glob.glob("/dev/sd*")`. -/
def gcp_non_root_disks (parts : List DiskPartition) (sdGlob : List String) :
    List String :=
  let root_devs := rootDevs parts
  let disks_present := sdGlob.filter sdDiskMatches
  (disks_present.map stripDev).filter (fun y => !is_in_root_devs y root_devs)

/-- The `{root, ephemeral, persistent}` dictionary built by `GcpInstance.os_disks`. -/
structure GcpOsDisks where
  root : List String
  ephemeral : List String
  persistent : List String
deriving DecidableEq

/-- `GcpInstance.os_disks`. -/
def gcp_os_disks (parts : List DiskPartition) (devListing sdGlob : List String) :
    Except String GcpOsDisks :=
  match gcp_non_root_nvmes parts devListing with
  | .error e => .error e
  | .ok nv =>
    .ok { root := nv.root
        , ephemeral := nv.ephemeral
        , persistent := gcp_non_root_disks parts sdGlob }

/-- `GcpInstance.get_local_disks`. -/
def gcp_get_local_disks (parts : List DiskPartition) (devListing sdGlob : List String) :
    Except String (List String) :=
  (gcp_os_disks parts devListing sdGlob).map (fun d => d.ephemeral)

/-- One disk object of the GCP metadata `disks` resource; only the
`interface` field is ever consulted. -/
structure GcpMetadataDisk where
  interface : String
deriving DecidableEq

/-- `GcpInstance.is_nvme`. -/
def gcp_is_nvme (d : GcpMetadataDisk) : Bool := d.interface == "NVME"

/-- `GcpInstance.__get_nvme_disks_from_metadata`; `none` models a fetch or
JSON-parse failure, whose handler substitutes an empty collection. -/
def gcp_nvme_disks_from_metadata (md : Option (List GcpMetadataDisk)) :
    List GcpMetadataDisk :=
  match md with
  | none => []
  | some disks => disks.filter gcp_is_nvme

/-- The `count_os_disks` local of `GcpInstance.nvme_disk_count`: the
OS-observed ephemeral disk count, with the `except` branch turning an
enumeration failure into 0. -/
def gcp_os_disk_count (parts : List DiskPartition) (devListing sdGlob : List String) : Nat :=
  match gcp_get_local_disks parts devListing sdGlob with
  | .ok l => l.length
  | .error _ => 0

/-- The `count_metadata_nvme_disks` local of `GcpInstance.nvme_disk_count`. -/
def gcp_metadata_nvme_count (md : Option (List GcpMetadataDisk)) : Nat :=
  (gcp_nvme_disks_from_metadata md).length

/-- `GcpInstance.nvme_disk_count`: the OS-observed ephemeral count (0 when the
OS enumeration raises) and the metadata NVMe count; returns the OS count when
it is strictly smaller, otherwise the metadata count. -/
def gcp_nvme_disk_count (parts : List DiskPartition) (devListing sdGlob : List String)
    (md : Option (List GcpMetadataDisk)) : Nat :=
  if gcp_os_disk_count parts devListing sdGlob < gcp_metadata_nvme_count md then
    gcp_os_disk_count parts devListing sdGlob
  else gcp_metadata_nvme_count md

/-- `AzureInstance._non_root_nvmes`: unlike the GCP/OCI variants it raises when
the number of partitions mounted at `/` differs from one. -/
def azure_non_root_nvmes (parts : List DiskPartition) (devListing : List String) :
    Except String NvmeBuckets :=
  if (parts.filter (fun x => x.mountpoint == "/")).length ≠ 1 then
    .error "found more than one disk mounted at root "
  else
    .ok { root := rootDevs parts
        , ephemeral := (devListing.filter nvmeMatches).filter
            (fun x => !is_in_root_devs x (rootDevs parts)) }

/-- The `{persistent, swap}` dictionary of `AzureInstance._non_root_disks`. -/
structure AzureNonRootDisks where
  persistent : List String
  swap : List String
deriving DecidableEq

/-- `AzureInstance._non_root_disks`.  `swap_dev` models
`AzureInstance._get_swap_dev()`: the realpath of the fixed symlink
`/dev/disk/cloud/azure_resource` when it exists, `none` otherwise.  Python's
`if swap_dev:` is also false for an empty string. -/
def azure_non_root_disks (parts : List DiskPartition) (sdGlob : List String)
    (swap_dev : Option String) : AzureNonRootDisks :=
  let root_devs := rootDevs parts
  let disks_present := sdGlob.filter sdDiskMatches
  let swap := match swap_dev with
    | some s => if s == "" then [] else [stripDev s]
    | none => []
  let persistent := (disks_present.filter (fun x =>
      !is_in_root_devs (stripDev x) root_devs && swap_dev != some x)).map stripDev
  { persistent := persistent, swap := swap }

/-- The `{root, ephemeral, persistent, swap}` dictionary of `AzureInstance.os_disks`. -/
structure AzureOsDisks where
  root : List String
  ephemeral : List String
  persistent : List String
  swap : List String
deriving DecidableEq

/-- `AzureInstance.os_disks`. -/
def azure_os_disks (parts : List DiskPartition) (devListing sdGlob : List String)
    (swap_dev : Option String) : Except String AzureOsDisks :=
  match azure_non_root_nvmes parts devListing with
  | .error e => .error e
  | .ok nv =>
    let nrd := azure_non_root_disks parts sdGlob swap_dev
    .ok { root := nv.root, ephemeral := nv.ephemeral
        , persistent := nrd.persistent, swap := nrd.swap }

/-- `AzureInstance.get_local_disks`. -/
def azure_get_local_disks (parts : List DiskPartition) (devListing sdGlob : List String)
    (swap_dev : Option String) : Except String (List String) :=
  (azure_os_disks parts devListing sdGlob swap_dev).map (fun d => d.ephemeral)

/-- `AzureInstance.nvme_disk_count`: length of the OS-observed ephemeral list;
its `except` branch turns an enumeration failure into a count of 0.  The
instance size plays no role in this computation. -/
def azure_nvme_disk_count (parts : List DiskPartition) (devListing sdGlob : List String)
    (swap_dev : Option String) : Nat :=
  match azure_get_local_disks parts devListing sdGlob swap_dev with
  | .ok eph => eph.length
  | .error _ => 0

/-- `OciInstance._non_root_nvmes`: textually identical to the GCP variant, and
like it has no raise site. -/
def oci_non_root_nvmes (parts : List DiskPartition) (devListing : List String) :
    Except String NvmeBuckets :=
  let root_devs := rootDevs parts
  let nvmes_present := devListing.filter nvmeMatches
  .ok { root := root_devs
      , ephemeral := nvmes_present.filter (fun x => !is_in_root_devs x root_devs) }

/-- `OciInstance._non_root_disks`: same persistent bucket as the GCP variant. -/
def oci_non_root_disks (parts : List DiskPartition) (sdGlob : List String) :
    List String :=
  let root_devs := rootDevs parts
  let disks_present := sdGlob.filter sdDiskMatches
  (disks_present.map stripDev).filter (fun y => !is_in_root_devs y root_devs)

/-- `OciInstance.nvme_disk_count`: length of the ephemeral bucket. -/
def oci_nvme_disk_count (parts : List DiskPartition) (devListing : List String) : Nat :=
  match oci_non_root_nvmes parts devListing with
  | .ok b => b.ephemeral.length
  | .error _ => 0

/-- The `{root, ephemeral, ebs}` dictionary of `AwsInstance._non_root_nvmes`. -/
structure AwsNvmeBuckets where
  root : List String
  ephemeral : List String
  ebs : List String
deriving DecidableEq

/-- `AwsInstance.__filter_nvmes`.  `model` gives the stripped contents of
`/sys/class/nvme/<controller>/model`. -/
def aws_filter_nvmes (model : String → String) (dev : String) (dev_type : String) : Bool :=
  match nvmeController dev with
  | none => false
  | some nvme_name =>
    if dev_type == "ephemeral" then !(model nvme_name == "Amazon Elastic Block Store")
    else model nvme_name == "Amazon Elastic Block Store"

/-- `AwsInstance._non_root_nvmes`: raises when the number of partitions mounted
at `/` differs from one; `findmnt_root` models `out("findmnt -n -o SOURCE /")`,
consulted when the root partition device reads `/dev/root`. -/
def aws_non_root_nvmes (parts : List DiskPartition) (devListing : List String)
    (model : String → String) (findmnt_root : String) : Except String AwsNvmeBuckets :=
  match parts.filter (fun x => x.mountpoint == "/") with
  | [cand] =>
    let root_dev := if cand.device == "/dev/root" then findmnt_root else cand.device
    let ephemeral_present := devListing.filter (fun x => aws_filter_nvmes model x "ephemeral")
    let ebs_present := devListing.filter (fun x => aws_filter_nvmes model x "ebs")
    .ok { root := [root_dev]
        , ephemeral := ephemeral_present
        , ebs := ebs_present.filter
            (fun x => !(("/dev/" ++ x).data.isPrefixOf root_dev.data)) }
  | _ => .error "found more than one disk mounted at root'"

/-! Fixtures taken from the repository's tests. -/

/-- `mock_disk_partitions` of tests/test_azure_instance.py. -/
def azureFixtureParts : List DiskPartition :=
  [ ⟨"/dev/root", "/"⟩, ⟨"/dev/sda15", "/boot/efi"⟩, ⟨"/dev/md0", "/var/lib/scylla"⟩
  , ⟨"/dev/md0", "/var/lib/systemd/coredump"⟩, ⟨"/dev/sdb1", "/mnt"⟩ ]

/-- `mock_listdevdir_standard_l16s_v2` of tests/test_azure_instance.py. -/
def azureFixtureListing : List String :=
  [ "sdb1", "root", "ng1n1", "nvme1n1", "ng0n1", "nvme0n1", "sdb", "sg1", "sda15"
  , "sda14", "sda1", "sda", "sg0", "nvme1", "nvme0", "zero", "null" ]

/-- `mock_glob_glob_dev_standard_l16s_v2` of tests/test_azure_instance.py. -/
def azureFixtureGlob : List String :=
  ["/dev/sdb1", "/dev/sdb", "/dev/sda15", "/dev/sda14", "/dev/sda1", "/dev/sda"]

/-- The same OS device listing with a third NVMe namespace attached. -/
def azureListing3Nvme : List String := "nvme2n1" :: azureFixtureListing

/-- C1, counterexample.  On an instance whose size is `Standard_L16s_v2`, with an
OS device listing showing a single non-root NVMe namespace, the Azure
`nvme_disk_count` reports 1, not the 2 the claimed static size table would
give.  The instance size does not even occur as an input of the computation. -/
theorem azure_nvme_disk_count_l16s_one_nvme_counterexample :
    azure_nvme_disk_count [⟨"/dev/root", "/"⟩] ["nvme0n1", "sda"] [] none = 1
    ∧ (1 : Nat) ≠ 2 := by
  constructor
  · decide
  · decide

/-- C1, amended: for the Azure variant, `nvme_disk_count` is the OS-observed
count of non-root NVMe namespace devices, not a static-table lookup keyed by
instance size.  On the repository's `Standard_L16s_v2` fixture listing (two
NVMe namespaces) it is 2, and adding a third NVMe namespace to the very same
instance's listing changes it to 3. -/
theorem azure_nvme_disk_count_is_os_observed :
    azure_nvme_disk_count azureFixtureParts azureFixtureListing
      azureFixtureGlob (some "/dev/sdb") = 2
    ∧ azure_nvme_disk_count azureFixtureParts azureListing3Nvme
      azureFixtureGlob (some "/dev/sdb") = 3 := by
  constructor
  · decide
  · decide

/-- C4: the GCP `nvme_disk_count` equals the minimum of the OS-observed
non-root NVMe count and the metadata-observed NVMe count; it never exceeds
either source, and when the two sources agree on a value it returns it. -/
theorem gcp_nvme_disk_count_is_min (parts : List DiskPartition)
    (devListing sdGlob : List String) (md : Option (List GcpMetadataDisk)) :
    gcp_nvme_disk_count parts devListing sdGlob md
        ≤ gcp_os_disk_count parts devListing sdGlob
    ∧ gcp_nvme_disk_count parts devListing sdGlob md ≤ gcp_metadata_nvme_count md
    ∧ (gcp_os_disk_count parts devListing sdGlob = gcp_metadata_nvme_count md →
        gcp_nvme_disk_count parts devListing sdGlob md
          = gcp_os_disk_count parts devListing sdGlob)
    ∧ gcp_nvme_disk_count parts devListing sdGlob md
        = min (gcp_os_disk_count parts devListing sdGlob) (gcp_metadata_nvme_count md) := by
  unfold gcp_nvme_disk_count gcp_os_disk_count gcp_metadata_nvme_count
  split <;> omega

/-- `mock_disk_partitions` of tests/test_gcp_instance.py. -/
def gcpFixtureParts : List DiskPartition :=
  [⟨"/dev/root", "/"⟩]

/-- `mock_listdevdir_n2_standard_8_4ssd` of tests/test_gcp_instance.py. -/
def gcpFixtureListing4ssd : List String :=
  [ "md0", "root", "nvme0n4", "nvme0n3", "nvme0n2", "sda15", "sda14", "sda1"
  , "sda", "sg0", "nvme0n1", "nvme0", "zero", "null" ]

/-- Metadata `disks` objects for four local NVMe SSDs plus the boot persistent
disk, as registered by `httpretty_gcp_metadata(num_local_disks=4)`. -/
def gcpFixtureMetadataDisks : List GcpMetadataDisk :=
  [⟨"SCSI"⟩, ⟨"NVME"⟩, ⟨"NVME"⟩, ⟨"NVME"⟩, ⟨"NVME"⟩]

/-- C4, witness: with the 4-SSD fixture the OS observes 4 local NVMe disks,
the metadata reports 4 NVMe disks, and `nvme_disk_count` resolves to 4. -/
theorem gcp_nvme_disk_count_is_min_witness :
    gcp_os_disk_count gcpFixtureParts gcpFixtureListing4ssd []
        = gcp_metadata_nvme_count (some gcpFixtureMetadataDisks)
    ∧ gcp_nvme_disk_count gcpFixtureParts gcpFixtureListing4ssd []
        (some gcpFixtureMetadataDisks)
      = gcp_os_disk_count gcpFixtureParts gcpFixtureListing4ssd []
    ∧ gcp_os_disk_count gcpFixtureParts gcpFixtureListing4ssd [] = 4 := by
  refine ⟨by decide, ?_, by decide⟩
  exact (gcp_nvme_disk_count_is_min gcpFixtureParts gcpFixtureListing4ssd []
    (some gcpFixtureMetadataDisks)).2.2.1 (by decide)

/-- A partition table reporting two partitions mounted at `/`. -/
def twoRootParts : List DiskPartition :=
  [⟨"/dev/sda1", "/"⟩, ⟨"/dev/sdb1", "/"⟩]

/-- C3, counterexample.  With two partitions mounted at `/`, the GCP and OCI
`_non_root_nvmes` do not raise: they return their buckets normally, treating
both candidates as root devices, so "every provider variant fails loudly on an
ambiguous root" is false. -/
theorem gcp_oci_no_raise_on_ambiguous_root :
    gcp_non_root_nvmes twoRootParts ["nvme0n1"]
      = .ok ⟨["/dev/sda1", "/dev/sdb1"], ["nvme0n1"]⟩
    ∧ oci_non_root_nvmes twoRootParts ["nvme0n1"]
      = .ok ⟨["/dev/sda1", "/dev/sdb1"], ["nvme0n1"]⟩ := by
  exact ⟨rfl, rfl⟩

/-- C3, amended: when the mounted-partition table reports more than one
partition at `/`, the Azure and AWS variants raise, while the GCP and OCI
variants proceed without raising (returning buckets built from all root
candidates). -/
theorem ambiguous_root_raises_azure_aws_only (parts : List DiskPartition)
    (devListing : List String) (model : String → String) (findmnt_root : String)
    (h : 1 < (parts.filter (fun x => x.mountpoint == "/")).length) :
    azure_non_root_nvmes parts devListing
      = .error "found more than one disk mounted at root "
    ∧ aws_non_root_nvmes parts devListing model findmnt_root
      = .error "found more than one disk mounted at root'"
    ∧ (∃ b, gcp_non_root_nvmes parts devListing = .ok b)
    ∧ (∃ b, oci_non_root_nvmes parts devListing = .ok b) := by
  refine ⟨?_, ?_, ⟨_, rfl⟩, ⟨_, rfl⟩⟩
  · unfold azure_non_root_nvmes
    rw [if_pos (by omega)]
  · unfold aws_non_root_nvmes
    rcases hc : parts.filter (fun x => x.mountpoint == "/") with _ | ⟨a, _ | ⟨b, t⟩⟩
    · rw [hc] at h; simp at h
    · rw [hc] at h; simp at h
    · rw [hc]

/-- C3, witness for the amended theorem, at the two-root fixture. -/
theorem ambiguous_root_raises_azure_aws_only_witness :
    1 < (twoRootParts.filter (fun x => x.mountpoint == "/")).length
    ∧ (azure_non_root_nvmes twoRootParts []
        = .error "found more than one disk mounted at root "
      ∧ aws_non_root_nvmes twoRootParts [] (fun _ => "") ""
        = .error "found more than one disk mounted at root'"
      ∧ (∃ b, gcp_non_root_nvmes twoRootParts [] = .ok b)
      ∧ (∃ b, oci_non_root_nvmes twoRootParts [] = .ok b)) :=
  ⟨by decide, ambiguous_root_raises_azure_aws_only twoRootParts [] (fun _ => "") ""
    (by decide)⟩

/-- The token state of `AwsInstance`: `_metadata_token` (set to `None` by
`__init__`) and `_metadata_token_time`, in whole seconds. -/
structure AwsTokenState where
  metadata_token : Option String
  metadata_token_time : Int
deriving DecidableEq

/-- `AwsInstance.METADATA_TOKEN_TTL`. -/
def METADATA_TOKEN_TTL : Int := 21600

/-- Python truthiness of `self._metadata_token`: `None` and `""` are falsy. -/
def pyTruthyOptStr : Option String → Bool
  | none => false
  | some s => !(s == "")

/-- `AwsInstance.__refresh_metadata_token`: stamps the current time and stores
the freshly fetched token. -/
def refresh_metadata_token (now : Int) (fresh_token : String) : AwsTokenState :=
  { metadata_token := some fresh_token, metadata_token_time := now }

/-- The token gate at the head of `AwsInstance.__instance_metadata`: returns
the state the metadata fetch then uses and whether a token refresh was
performed first.  `now` is the fetch time; `int(time_diff.total_seconds())`
of the source is exact on whole-second clocks, so the elapsed time is
`now - metadata_token_time`. -/
def instance_metadata_token_gate (now : Int) (fresh_token : String)
    (st : AwsTokenState) : AwsTokenState × Bool :=
  if !pyTruthyOptStr st.metadata_token then
    (refresh_metadata_token now fresh_token, true)
  else if now - st.metadata_token_time ≥ METADATA_TOKEN_TTL - 120 then
    (refresh_metadata_token now fresh_token, true)
  else (st, false)

/-- C5: with TTL 21600s and safety margin 120s, a fetch whose elapsed time
since token issue is at least TTL − 120 re-issues the token first (in
particular at elapsed = TTL − 60), a fetch at elapsed = TTL − 200 does not,
and in all cases the token the fetch actually uses is strictly younger than
TTL − 120 seconds. -/
theorem aws_token_gate_safety (st : AwsTokenState) (now : Int) (fresh_token : String) :
    (pyTruthyOptStr st.metadata_token = true →
      now - st.metadata_token_time ≥ METADATA_TOKEN_TTL - 120 →
      (instance_metadata_token_gate now fresh_token st).2 = true)
    ∧ (instance_metadata_token_gate (METADATA_TOKEN_TTL - 60) "fresh"
        ⟨some "token", 0⟩).2 = true
    ∧ (instance_metadata_token_gate (METADATA_TOKEN_TTL - 200) "fresh"
        ⟨some "token", 0⟩).2 = false
    ∧ now - (instance_metadata_token_gate now fresh_token st).1.metadata_token_time
        < METADATA_TOKEN_TTL - 120 := by
  refine ⟨?_, by decide, by decide, ?_⟩
  · intro h1 h2
    unfold instance_metadata_token_gate
    rw [h1]
    simp only [Bool.not_true, Bool.false_eq_true, if_false]
    rw [if_pos h2]
  · unfold instance_metadata_token_gate refresh_metadata_token METADATA_TOKEN_TTL
    split_ifs
    · simp
    · simp
    · simp only [] ; omega

/-- C5, witness: a concrete fetch at elapsed = TTL − 60 with a live token. -/
theorem aws_token_gate_safety_witness :
    pyTruthyOptStr (AwsTokenState.mk (some "tok") 0).metadata_token = true
    ∧ (21540 : Int) - (AwsTokenState.mk (some "tok") 0).metadata_token_time
        ≥ METADATA_TOKEN_TTL - 120
    ∧ (instance_metadata_token_gate 21540 "fresh" ⟨some "tok", 0⟩).2 = true :=
  ⟨by decide, by decide,
    (aws_token_gate_safety ⟨some "tok", 0⟩ 21540 "fresh").1 (by decide) (by decide)⟩


/-- Decidable equality for `Except`, used to evaluate the embeddings on
concrete fixtures. -/
instance {ε α : Type} [DecidableEq ε] [DecidableEq α] : DecidableEq (Except ε α) := by
  intro a b
  cases a <;> cases b
  case error.error e f => exact decidable_of_iff (e = f) (by simp)
  case error.ok e x => exact isFalse (by simp)
  case ok.error x e => exact isFalse (by simp)
  case ok.ok x y => exact decidable_of_iff (x = y) (by simp)

/-- Outcome of one `_curl_one` attempt: a response body, an HTTP error
response (`urllib.error.HTTPError`, carrying the status code; a subclass of
`URLError`, so also caught by the retry loop), or a transport-level failure
(`TimeoutError`, or a non-HTTP `urllib.error.URLError`: connection refused,
DNS failure). -/
inductive FetchOutcome where
  | success (body : String)
  | httpError (code : Nat)
  | transportError
deriving DecidableEq

/-- The client-error test of `curl`: `e.code in range(400, 500)` on an
`HTTPError`. -/
def isClientError : FetchOutcome → Bool
  | .httpError c => 400 ≤ c && c < 500
  | _ => false

/-- A failure the `curl` loop re-attempts after sleeping: anything caught by
its handler except a 4xx `HTTPError`. -/
def isRetriedFailure : FetchOutcome → Bool
  | .success _ => false
  | .httpError c => !(400 ≤ c && c < 500)
  | .transportError => true

/-- What a `curl` run did: its result (an error being the exception that
propagated), how many HTTP requests (`_curl_one` calls) it performed, and how
many fixed `retry_interval` sleeps it executed. -/
structure CurlTrace where
  result : Except FetchOutcome String
  requests : Nat
  sleeps : Nat
deriving DecidableEq

/-- The retry loop of `curl` (and of the identically-shaped `aiocurl`).
`out i` is the outcome of the i-th `_curl_one` call; `f` is the number of
re-attempts still allowed after the current one.  The source keeps a
`retries` counter instead: on a non-client failure it sleeps, increments
`retries`, and re-raises once `retries >= max_retries`, which is exactly
`f = 0` under `f = max_retries - 1 - retries`; the final failed attempt
sleeps before re-raising, and a `max_retries` of 0 behaves like 1. -/
def curlStep (t : CurlTrace) : CurlTrace :=
  ⟨t.result, t.requests + 1, t.sleeps + 1⟩

def curlGo (out : Nat → FetchOutcome) (i : Nat) : Nat → CurlTrace
  | 0 =>
    match out i with
    | .success b => ⟨.ok b, 1, 0⟩
    | .httpError c =>
      if 400 ≤ c && c < 500 then ⟨.error (.httpError c), 1, 0⟩
      else ⟨.error (.httpError c), 1, 1⟩
    | .transportError => ⟨.error .transportError, 1, 1⟩
  | f + 1 =>
    match out i with
    | .success b => ⟨.ok b, 1, 0⟩
    | .httpError c =>
      if 400 ≤ c && c < 500 then ⟨.error (.httpError c), 1, 0⟩
      else curlStep (curlGo out (i + 1) f)
    | .transportError => curlStep (curlGo out (i + 1) f)

/-- `curl(url, ..., max_retries)`: the loop entered with `retries = 0`. -/
def curl (out : Nat → FetchOutcome) (max_retries : Nat) : CurlTrace :=
  curlGo out 0 (max_retries - 1)

theorem curlGo_requests_le (out : Nat → FetchOutcome) (f : Nat) :
    ∀ i, (curlGo out i f).requests ≤ f + 1 := by
  induction f with
  | zero =>
    intro i
    unfold curlGo
    rcases out i with b | c | _
    · simp
    · dsimp only
      split <;> simp
    · simp
  | succ f ih =>
    intro i
    unfold curlGo
    rcases out i with b | c | _
    · simp
    · dsimp only
      split
      · simp
      · have := ih (i + 1)
        simp only [curlStep]
        omega
    · have := ih (i + 1)
      simp only [curlStep]
      omega

theorem curlGo_retried (out : Nat → FetchOutcome) (f : Nat) :
    ∀ i j, j + 1 < (curlGo out i f).requests → isRetriedFailure (out (i + j)) = true := by
  induction f with
  | zero =>
    intro i j h
    unfold curlGo at h
    rcases ho : out i with b | c | _ <;> rw [ho] at h
    · simp at h
    · simp [apply_ite] at h
    · simp at h
  | succ f ih =>
    intro i j h
    unfold curlGo at h
    rcases ho : out i with b | c | _ <;> rw [ho] at h
    · simp at h
    · dsimp only at h
      split at h
      · simp at h
      · rcases j with _ | j'
        · rename_i hc
          have hi : i + 0 = i := rfl
          rw [hi, ho]
          simp only [isRetriedFailure]
          simp at hc ⊢
          omega
        · simp only [curlStep] at h
          have harg : i + (j' + 1) = (i + 1) + j' := by omega
          rw [harg]
          exact ih (i + 1) j' (by omega)
    · rcases j with _ | j'
      · have hi : i + 0 = i := rfl
        rw [hi, ho]
        simp [isRetriedFailure]
      · simp only [curlStep] at h
        have harg : i + (j' + 1) = (i + 1) + j' := by omega
        rw [harg]
        exact ih (i + 1) j' (by omega)

theorem curlGo_client_error (out : Nat → FetchOutcome) (f : Nat) :
    ∀ i j c, j < (curlGo out i f).requests → out (i + j) = .httpError c →
      400 ≤ c → c < 500 →
      curlGo out i f = ⟨.error (.httpError c), j + 1, j⟩ := by
  induction f with
  | zero =>
    intro i j c hj hoc h4 h5
    unfold curlGo at hj ⊢
    rcases ho : out i with b | c0 | _ <;> rw [ho] at hj <;> dsimp only at hj ⊢
    · simp at hj
      subst hj
      rw [Nat.add_zero, ho] at hoc
      exact absurd hoc (by simp)
    · simp [apply_ite] at hj
      subst hj
      rw [Nat.add_zero, ho] at hoc
      injection hoc with hcc
      subst hcc
      rw [if_pos (by simp only [Bool.and_eq_true, decide_eq_true_eq]; exact ⟨h4, h5⟩)]
    · simp at hj
      subst hj
      rw [Nat.add_zero, ho] at hoc
      exact absurd hoc (by simp)
  | succ f ih =>
    intro i j c hj hoc h4 h5
    unfold curlGo at hj ⊢
    rcases ho : out i with b | c0 | _ <;> rw [ho] at hj <;> dsimp only at hj ⊢
    · simp at hj
      subst hj
      rw [Nat.add_zero, ho] at hoc
      exact absurd hoc (by simp)
    · by_cases hc : (400 ≤ c0 && c0 < 500) = true
      · rw [if_pos hc] at hj ⊢
        simp at hj
        subst hj
        rw [Nat.add_zero, ho] at hoc
        injection hoc with hcc
        subst hcc
        rfl
      · rw [if_neg hc] at hj ⊢
        rcases j with _ | j'
        · rw [Nat.add_zero, ho] at hoc
          injection hoc with hcc
          subst hcc
          simp only [Bool.and_eq_true, decide_eq_true_eq] at hc
          exact absurd ⟨h4, h5⟩ hc
        · simp only [curlStep] at hj
          have harg : i + (j' + 1) = (i + 1) + j' := by omega
          rw [harg] at hoc
          rw [ih (i + 1) j' c (by omega) hoc h4 h5]
          rfl
    · rcases j with _ | j'
      · rw [Nat.add_zero, ho] at hoc
        exact absurd hoc (by simp)
      · simp only [curlStep] at hj
        have harg : i + (j' + 1) = (i + 1) + j' := by omega
        rw [harg] at hoc
        rw [ih (i + 1) j' c (by omega) hoc h4 h5]
        rfl

/-- An outcome sequence whose first attempt draws an HTTP 500 response and
whose second attempt succeeds. -/
def out500 : Nat → FetchOutcome := fun i => if i = 0 then .httpError 500 else .success "ok"

/-- C6, counterexample.  `curl` also retries HTTP error responses whose status
is not in 400..499: after an HTTP 500 response — an HTTP response, not a
transport-level failure — it sleeps and issues a second request, so "retries
only transport-level failures" is false as stated. -/
theorem curl_retries_http_500_counterexample :
    out500 0 = FetchOutcome.httpError 500
    ∧ isClientError (FetchOutcome.httpError 500) = false
    ∧ isRetriedFailure (FetchOutcome.httpError 500) = true
    ∧ curl out500 5 = ⟨.ok "ok", 2, 1⟩ := by
  refine ⟨rfl, by decide, by decide, by decide⟩

/-- C6, amended: `curl` performs one HTTP request per attempt with a fixed
inter-attempt delay, making at most `max_retries` attempts (at least one)
before surfacing the failure; every attempt that is followed by a further
attempt failed with a retried failure — a transport-level failure or a
non-4xx HTTP error response; and an HTTP response with a 4xx status code at
any reached attempt makes it fail immediately: no further request and no
delay for that attempt. -/
theorem curl_retries_non_client_failures (out : Nat → FetchOutcome) (max_retries : Nat) :
    (curl out max_retries).requests ≤ max 1 max_retries
    ∧ (∀ j, j + 1 < (curl out max_retries).requests → isRetriedFailure (out j) = true)
    ∧ (∀ j c, j < (curl out max_retries).requests → out j = .httpError c →
        400 ≤ c → c < 500 →
        curl out max_retries = ⟨.error (.httpError c), j + 1, j⟩) := by
  refine ⟨?_, ?_, ?_⟩
  · have := curlGo_requests_le out (max_retries - 1) 0
    unfold curl
    omega
  · intro j h
    have := curlGo_retried out (max_retries - 1) 0 j h
    simpa using this
  · intro j c hj hoc h4 h5
    exact curlGo_client_error out (max_retries - 1) 0 j c hj (by simpa using hoc) h4 h5

/-- An outcome sequence that always draws an HTTP 404 response. -/
def out404 : Nat → FetchOutcome := fun _ => FetchOutcome.httpError 404

/-- C6, witness: a 404 on the first attempt fails immediately with one request
and no delay, within the attempt bound. -/
theorem curl_retries_non_client_failures_witness :
    (0 < (curl out404 3).requests ∧ out404 0 = FetchOutcome.httpError 404
      ∧ 400 ≤ 404 ∧ 404 < 500)
    ∧ curl out404 3 = ⟨.error (.httpError 404), 1, 0⟩
    ∧ (curl out404 3).requests ≤ max 1 3 :=
  ⟨⟨by decide, rfl, by decide, by decide⟩,
    (curl_retries_non_client_failures out404 3).2.2 0 404 (by decide) rfl
      (by decide) (by decide),
    (curl_retries_non_client_failures out404 3).1⟩

/-- The four supported cloud providers. -/
inductive Provider where
  | aws
  | gcp
  | azure
  | oci
deriving DecidableEq

/-- A network event of detection: one candidate probing its metadata service. -/
inductive NetEvent where
  | probe (p : Provider)
deriving DecidableEq

/-- The environment detection runs in: whether each candidate's DMI signature
matches the local identification files, and whether each candidate's metadata
probe would succeed. -/
structure DetectEnv where
  dmi : Provider → Bool
  probe : Provider → Bool

/-- `CloudInstance.identify` for one candidate:
`cls.identify_dmi() or await cls.identify_metadata()` — the DMI check first,
the metadata probe only when the DMI signature does not match.  Returns the
candidate's detection result and the network events its task performs. -/
def identifyTask (env : DetectEnv) (p : Provider) : Option Provider × List NetEvent :=
  if env.dmi p then (some p, [])
  else (if env.probe p then some p else none, [NetEvent.probe p])

/-- Task creation order in `identify_cloud_async`. -/
def taskOrder : List Provider := [.aws, .gcp, .azure, .oci]

/-- `identify_cloud_async`.  All four tasks are created before the main
coroutine first awaits, and the probes (`aiocurl` calls the blocking
`_curl_one`) suspend only in the retry path, so each task runs to completion
the first time the event loop schedules it — in creation order, before the
`as_completed` loop resumes.  Hence every candidate's network events happen
before the cancellation of the losers (which is therefore a no-op), and
`as_completed` yields the tasks in completion order = creation order; the
loop keeps the first truthy result. -/
def identify_cloud_async (env : DetectEnv) : Option Provider × List NetEvent :=
  let tasks := taskOrder.map (identifyTask env)
  ((tasks.map Prod.fst).findSome? id, (tasks.map Prod.snd).flatten)

/-- An environment where only GCP's DMI signature matches and no probe would
succeed (the usual single-cloud machine). -/
def dmiOnlyGcpEnv : DetectEnv :=
  { dmi := fun p => p == Provider.gcp, probe := fun _ => false }

/-- C8, counterexample.  When exactly one provider's DMI signature matches
(GCP here), detection resolves to that provider, but network probes are still
issued: the other three candidates run their metadata probes before the
winner's completion cancels anything, so "no network probe is issued at all"
is false. -/
theorem identify_dmi_match_still_probes_counterexample :
    identify_cloud_async dmiOnlyGcpEnv
      = (some Provider.gcp,
         [NetEvent.probe .aws, NetEvent.probe .azure, NetEvent.probe .oci])
    ∧ (identify_cloud_async dmiOnlyGcpEnv).2 ≠ [] := by
  refine ⟨by decide, by decide⟩

/-- C8, amended: when exactly one provider's DMI signature matches and the
other candidates' probes fail, detection resolves to the matching provider
and that candidate issues no probe (its Phase 2 short-circuits), but each of
the other three candidates does issue its metadata probe before cancellation
can take effect. -/
theorem identify_unique_dmi_resolves_with_loser_probes (env : DetectEnv) (p : Provider)
    (hd : env.dmi p = true)
    (ho : ∀ q, q ≠ p → env.dmi q = false)
    (hp : ∀ q, q ≠ p → env.probe q = false) :
    (identify_cloud_async env).1 = some p
    ∧ NetEvent.probe p ∉ (identify_cloud_async env).2
    ∧ (identify_cloud_async env).2
        = (taskOrder.filter (fun q => q != p)).map NetEvent.probe := by
  cases p with
  | aws =>
    have e2 : identifyTask env Provider.gcp = (none, [NetEvent.probe Provider.gcp]) := by
      simp [identifyTask, ho Provider.gcp (by decide), hp Provider.gcp (by decide)]
    have e3 : identifyTask env Provider.azure = (none, [NetEvent.probe Provider.azure]) := by
      simp [identifyTask, ho Provider.azure (by decide), hp Provider.azure (by decide)]
    have e4 : identifyTask env Provider.oci = (none, [NetEvent.probe Provider.oci]) := by
      simp [identifyTask, ho Provider.oci (by decide), hp Provider.oci (by decide)]
    have ew : identifyTask env Provider.aws = (some Provider.aws, []) := by
      simp [identifyTask, hd]
    have key : identify_cloud_async env
        = (some Provider.aws,
           [NetEvent.probe .gcp, NetEvent.probe .azure, NetEvent.probe .oci]) := by
      simp [identify_cloud_async, taskOrder, ew, e2, e3, e4]
    refine ⟨by rw [key], by rw [key]; decide, by rw [key]; decide⟩
  | gcp =>
    have e1 : identifyTask env Provider.aws = (none, [NetEvent.probe Provider.aws]) := by
      simp [identifyTask, ho Provider.aws (by decide), hp Provider.aws (by decide)]
    have e3 : identifyTask env Provider.azure = (none, [NetEvent.probe Provider.azure]) := by
      simp [identifyTask, ho Provider.azure (by decide), hp Provider.azure (by decide)]
    have e4 : identifyTask env Provider.oci = (none, [NetEvent.probe Provider.oci]) := by
      simp [identifyTask, ho Provider.oci (by decide), hp Provider.oci (by decide)]
    have ew : identifyTask env Provider.gcp = (some Provider.gcp, []) := by
      simp [identifyTask, hd]
    have key : identify_cloud_async env
        = (some Provider.gcp,
           [NetEvent.probe .aws, NetEvent.probe .azure, NetEvent.probe .oci]) := by
      simp [identify_cloud_async, taskOrder, ew, e1, e3, e4]
    refine ⟨by rw [key], by rw [key]; decide, by rw [key]; decide⟩
  | azure =>
    have e1 : identifyTask env Provider.aws = (none, [NetEvent.probe Provider.aws]) := by
      simp [identifyTask, ho Provider.aws (by decide), hp Provider.aws (by decide)]
    have e2 : identifyTask env Provider.gcp = (none, [NetEvent.probe Provider.gcp]) := by
      simp [identifyTask, ho Provider.gcp (by decide), hp Provider.gcp (by decide)]
    have e4 : identifyTask env Provider.oci = (none, [NetEvent.probe Provider.oci]) := by
      simp [identifyTask, ho Provider.oci (by decide), hp Provider.oci (by decide)]
    have ew : identifyTask env Provider.azure = (some Provider.azure, []) := by
      simp [identifyTask, hd]
    have key : identify_cloud_async env
        = (some Provider.azure,
           [NetEvent.probe .aws, NetEvent.probe .gcp, NetEvent.probe .oci]) := by
      simp [identify_cloud_async, taskOrder, ew, e1, e2, e4]
    refine ⟨by rw [key], by rw [key]; decide, by rw [key]; decide⟩
  | oci =>
    have e1 : identifyTask env Provider.aws = (none, [NetEvent.probe Provider.aws]) := by
      simp [identifyTask, ho Provider.aws (by decide), hp Provider.aws (by decide)]
    have e2 : identifyTask env Provider.gcp = (none, [NetEvent.probe Provider.gcp]) := by
      simp [identifyTask, ho Provider.gcp (by decide), hp Provider.gcp (by decide)]
    have e3 : identifyTask env Provider.azure = (none, [NetEvent.probe Provider.azure]) := by
      simp [identifyTask, ho Provider.azure (by decide), hp Provider.azure (by decide)]
    have ew : identifyTask env Provider.oci = (some Provider.oci, []) := by
      simp [identifyTask, hd]
    have key : identify_cloud_async env
        = (some Provider.oci,
           [NetEvent.probe .aws, NetEvent.probe .gcp, NetEvent.probe .azure]) := by
      simp [identify_cloud_async, taskOrder, ew, e1, e2, e3]
    refine ⟨by rw [key], by rw [key]; decide, by rw [key]; decide⟩

/-- C8, witness: the amended theorem at the GCP-DMI environment. -/
theorem identify_unique_dmi_resolves_with_loser_probes_witness :
    dmiOnlyGcpEnv.dmi Provider.gcp = true
    ∧ ((identify_cloud_async dmiOnlyGcpEnv).1 = some Provider.gcp
      ∧ NetEvent.probe Provider.gcp ∉ (identify_cloud_async dmiOnlyGcpEnv).2
      ∧ (identify_cloud_async dmiOnlyGcpEnv).2
          = (taskOrder.filter (fun q => q != Provider.gcp)).map NetEvent.probe) :=
  ⟨by decide,
    identify_unique_dmi_resolves_with_loser_probes dmiOnlyGcpEnv Provider.gcp
      (by decide) (by intro q hq; cases q <;> simp_all [dmiOnlyGcpEnv])
      (by intro q hq; rfl)⟩

/-- An io preset: read/write IOPS and bandwidth figures in bytes/second. -/
structure IoPreset where
  read_iops : Nat
  read_bandwidth : Nat
  write_iops : Nat
  write_bandwidth : Nat
deriving DecidableEq

/-- Modelled from the spec: outcome of the spec's `IoPresetResolver` — the AWS
resolver `AwsIoSetup.generate` of `common/scylla_cloud_io_setup`, which is
absent from `src/` (only its tests are present): either a resolved profile or
the delegation to the external live-measurement tool (`scylla_io_setup`). -/
inductive IoResolution where
  | preset (p : IoPreset)
  | delegateToLiveMeasurement
deriving DecidableEq

/-- Modelled from the spec: the unsupported-instance-class business error the
resolver raises before any table lookup. -/
inductive IoResolveError where
  | unsupportedInstanceClass
deriving DecidableEq

/-- Per-disk table figures multiplied linearly by the local disk count. -/
def scalePreset (p : IoPreset) (local_disk_count : Nat) : IoPreset :=
  ⟨p.read_iops * local_disk_count, p.read_bandwidth * local_disk_count,
   p.write_iops * local_disk_count, p.write_bandwidth * local_disk_count⟩

/-- Modelled from the spec: the AWS `IoPresetResolver`
(`AwsIoSetup.generate` of the missing `common/scylla_cloud_io_setup`; its
behavior is pinned down by tests/test_aws_instance.py).  Resolution order: an
unsupported instance class errors before lookup; an exact match of the
instance type in the preset table resolves to the table's single-disk figures
multiplied by `local_disk_count`; otherwise the family-wide `<class>.ALL`
aggregate entry resolves the same way; when no entry resolves at any level
the resolver delegates to the live-measurement tool instead of raising. -/
def awsResolveIoPreset (table : String → Option IoPreset)
    (is_supported_instance_class : Bool) (instance_type instance_class : String)
    (local_disk_count : Nat) : Except IoResolveError IoResolution :=
  if ¬ is_supported_instance_class then .error .unsupportedInstanceClass
  else
    match table instance_type with
    | some p => .ok (.preset (scalePreset p local_disk_count))
    | none =>
      match table (instance_class ++ ".ALL") with
      | some p => .ok (.preset (scalePreset p local_disk_count))
      | none => .ok .delegateToLiveMeasurement

/-- C2: for the AWS resolver, an instance type present in the preset table
resolves to the table's per-disk figures multiplied linearly by the local
disk count. -/
theorem aws_preset_scales_linearly (table : String → Option IoPreset)
    (instance_type instance_class : String) (local_disk_count : Nat) (p : IoPreset)
    (ht : table instance_type = some p) :
    awsResolveIoPreset table true instance_type instance_class local_disk_count
      = .ok (.preset ⟨p.read_iops * local_disk_count,
          p.read_bandwidth * local_disk_count,
          p.write_iops * local_disk_count,
          p.write_bandwidth * local_disk_count⟩) := by
  simp [awsResolveIoPreset, ht, scalePreset]

/-- The i3.xlarge single-disk preset of the AWS table (figures as in
`lib/scylla_cloud_io_setup.py` and `MOCK_AWS_IO_PARAMS` of the tests). -/
def i3xlargePreset : IoPreset := ⟨200800, 1185106376, 53180, 423621267⟩

/-- A one-entry AWS preset table holding the i3.xlarge single-disk preset. -/
def i3Table : String → Option IoPreset :=
  fun s => if s = "i3.xlarge" then some i3xlargePreset else none

/-- C2, witness: `i3.xlarge` (1-disk preset read_iops 200800) with a local
disk count of 2 yields read_iops 401600 — linear scaling. -/
theorem aws_preset_scales_linearly_witness :
    i3Table "i3.xlarge" = some i3xlargePreset
    ∧ awsResolveIoPreset i3Table true "i3.xlarge" "i3" 2
      = .ok (.preset ⟨401600, 2370212752, 106360, 847242534⟩) :=
  ⟨rfl, by rw [aws_preset_scales_linearly i3Table "i3.xlarge" "i3" 2 i3xlargePreset rfl]
           rfl⟩

/-- C9: a preset-table miss at every fallback level on a supported instance
class is not an error: the resolver returns the live-measurement delegation
rather than raising. -/
theorem aws_preset_miss_delegates (table : String → Option IoPreset)
    (instance_type instance_class : String) (local_disk_count : Nat)
    (h1 : table instance_type = none)
    (h2 : table (instance_class ++ ".ALL") = none) :
    awsResolveIoPreset table true instance_type instance_class local_disk_count
      = .ok .delegateToLiveMeasurement := by
  simp [awsResolveIoPreset, h1, h2]

/-- C9, witness: a supported class (`i4i`) whose type has no table entry and
no `.ALL` fallback entry resolves to the delegation outcome. -/
theorem aws_preset_miss_delegates_witness :
    i3Table "i4i.large" = none ∧ i3Table ("i4i" ++ ".ALL") = none
    ∧ awsResolveIoPreset i3Table true "i4i.large" "i4i" 1
      = .ok .delegateToLiveMeasurement :=
  ⟨rfl, rfl, aws_preset_miss_delegates i3Table "i4i.large" "i4i" 1 rfl rfl⟩

/-- Kind of a top-level Python declaration as written in
`lib/scylla_cloud_io_setup.py`: a `def` with its required positional
parameter names, or a `class` with its base-class names. -/
inductive PyDecl where
  | funcDef (params : List String)
  | classDef (bases : List String)
deriving DecidableEq

/-- Lines 16-17 of lib/scylla_cloud_io_setup.py read
`def UnsupportedInstanceClassError(Exception): pass` — a `def` whose single
required positional parameter is named `Exception`, not a class. -/
def UnsupportedInstanceClassError_decl : PyDecl := .funcDef ["Exception"]

/-- Lines 19-20 of lib/scylla_cloud_io_setup.py read
`def PresetNotFoundError(Exception): pass` — likewise a `def`. -/
def PresetNotFoundError_decl : PyDecl := .funcDef ["Exception"]

/-- A Python value, as far as these modules produce one. -/
inductive PyValue where
  | pyNone
  | instanceOf (className : String)
deriving DecidableEq

/-- An exception as raised at runtime: a `TypeError` produced by the
interpreter itself, or an instance of a user-defined exception class. -/
inductive PyException where
  | typeError (msg : String)
  | userExc (className : String)
deriving DecidableEq

/-- CPython call semantics for `Name()` (zero arguments): calling a class
constructs an instance of it; calling a `def` with fewer arguments than its
required positional parameters raises `TypeError` before the body runs (the
bodies here are `pass`, so a call that did bind its parameters would return
`None`). -/
def pyCallNoArgs (name : String) (d : PyDecl) : Except PyException PyValue :=
  match d with
  | .classDef _ => .ok (.instanceOf name)
  | .funcDef params =>
    if params.length = 0 then .ok .pyNone
    else .error (.typeError "missing required positional argument")

/-- CPython `raise` semantics on the evaluated operand: an exception raised
while evaluating the operand propagates; raising an instance of an exception
class raises that instance; raising `None` is itself a `TypeError`. -/
def pyRaise (v : Except PyException PyValue) : PyException :=
  match v with
  | .error e => e
  | .ok (.instanceOf c) => .userExc c
  | .ok .pyNone => .typeError "exceptions must derive from BaseException"

/-- The exception actually produced by `raise UnsupportedInstanceClassError()`. -/
def raisedUnsupportedInstanceClassError : PyException :=
  pyRaise (pyCallNoArgs "UnsupportedInstanceClassError" UnsupportedInstanceClassError_decl)

/-- The exception actually produced by `raise PresetNotFoundError()`. -/
def raisedPresetNotFoundError : PyException :=
  pyRaise (pyCallNoArgs "PresetNotFoundError" PresetNotFoundError_decl)

/-- The duck-typed `idata` the lib io-setup generators consume:
`instanceStr` models the `idata.instance()` call, the other fields the
identically named methods/attributes. -/
structure IData where
  instanceStr : String
  instance_class : String
  instance_size : String
  is_supported_instance_class : Bool
  local_disks : List String
  nvme_disk_count : Nat
deriving DecidableEq

/-- The preset chosen by the `if/elif` chain of
`lib/scylla_cloud_io_setup.py`'s `aws_io_setup.generate`; `none` when no
branch assigns the properties (the inner size chains have no `else`, so an
unlisted size of a listed family also assigns nothing).
`nr_disks = len(idata.get_local_disks())`. -/
def lib_aws_preset_chain (idata : IData) : Option IoPreset :=
  let nr := idata.local_disks.length
  if idata.instanceStr == "i3.large" then some ⟨111000, 653925080, 36800, 215066473⟩
  else if idata.instanceStr == "i3.xlarge" then some ⟨200800, 1185106376, 53180, 423621267⟩
  else if idata.instance_class == "i3" then
    some ⟨411200 * nr, 2015342735 * nr, 181500 * nr, 808775652 * nr⟩
  else if idata.instance_class == "i3en" then
    if idata.instanceStr == "i3en.large" then some ⟨43315, 330301440, 33177, 165675008⟩
    else if idata.instanceStr == "i3en.xlarge" || idata.instanceStr == "i3en.2xlarge" then
      some ⟨84480 * nr, 666894336 * nr, 66969 * nr, 333447168 * nr⟩
    else some ⟨257024 * nr, 2043674624 * nr, 174080 * nr, 1024458752 * nr⟩
  else if idata.instance_class == "i2" then
    some ⟨64000 * nr, 507338935 * nr, 57100 * nr, 483141731 * nr⟩
  else if idata.instance_class == "c6gd" || idata.instance_class == "m6gd"
      || idata.instance_class == "r6gd" || idata.instance_class == "x2gd" then
    if idata.instance_size == "medium" then some ⟨14808, 77869147, 5972, 32820302⟩
    else if idata.instance_size == "large" then some ⟨29690, 157712240, 12148, 65978069⟩
    else if idata.instance_size == "xlarge" then some ⟨59688, 318762880, 24449, 133311808⟩
    else if idata.instance_size == "2xlarge" then some ⟨119353, 634795733, 49069, 266841680⟩
    else if idata.instance_size == "4xlarge" then some ⟨237196, 1262309504, 98884, 533938080⟩
    else if idata.instance_size == "8xlarge" then some ⟨442945, 2522688939, 166021, 1063041152⟩
    else if idata.instance_size == "12xlarge" then
      some ⟨353691 * nr, 1908192256 * nr, 146732 * nr, 806399360 * nr⟩
    else if idata.instance_size == "16xlarge" then
      some ⟨426893 * nr, 2525781589 * nr, 161740 * nr, 1063389952 * nr⟩
    else if idata.instance_size == "metal" then
      some ⟨416257 * nr, 2527296683 * nr, 156326 * nr, 1063657088 * nr⟩
    else none
  else if idata.instanceStr == "im4gn.large" then some ⟨33943, 288433525, 27877, 126864680⟩
  else if idata.instanceStr == "im4gn.xlarge" then some ⟨68122, 576603520, 55246, 254534954⟩
  else if idata.instanceStr == "im4gn.2xlarge" then some ⟨136422, 1152663765, 92184, 508926453⟩
  else if idata.instanceStr == "im4gn.4xlarge" then some ⟨273050, 1638427264, 92173, 1027966826⟩
  else if idata.instanceStr == "im4gn.8xlarge" then
    some ⟨250241 * nr, 1163130709 * nr, 86374 * nr, 977617664 * nr⟩
  else if idata.instanceStr == "im4gn.16xlarge" then
    some ⟨273030 * nr, 1638211413 * nr, 92607 * nr, 1028340266 * nr⟩
  else if idata.instanceStr == "is4gen.medium" then some ⟨33965, 288462506, 27876, 126954200⟩
  else if idata.instanceStr == "is4gen.large" then some ⟨68131, 576654869, 55257, 254551002⟩
  else if idata.instanceStr == "is4gen.xlarge" then some ⟨136413, 1152747904, 92180, 508889546⟩
  else if idata.instanceStr == "is4gen.2xlarge" then some ⟨273038, 1628982613, 92182, 1027983530⟩
  else if idata.instanceStr == "is4gen.4xlarge" then
    some ⟨260493 * nr, 1217396928 * nr, 83169 * nr, 1000390784 * nr⟩
  else if idata.instanceStr == "is4gen.8xlarge" then
    some ⟨273021 * nr, 1656354602 * nr, 92233 * nr, 1028010325 * nr⟩
  else none

/-- `1024*1024`, the `mbs` local of the gcp/azure generators. -/
def mbs : Nat := 1024 * 1024

/-- The preset chosen by `gcp_io_setup.generate`'s chain on
`nr_disks = idata.nvme_disk_count`. -/
def lib_gcp_preset_chain (idata : IData) : Option IoPreset :=
  let nr := idata.nvme_disk_count
  if 1 ≤ nr && nr < 4 then
    some ⟨170000 * nr, 660 * mbs * nr, 90000 * nr, 350 * mbs * nr⟩
  else if 4 ≤ nr && nr ≤ 8 then some ⟨680000, 2650 * mbs, 360000, 1400 * mbs⟩
  else if nr == 16 then some ⟨1600000, 4521251328, 800000, 2759452672⟩
  else if nr == 24 then some ⟨2400000, 5921532416, 1200000, 4663037952⟩
  else none

/-- The preset chosen by `azure_io_setup.generate`'s chain on
`nr_disks = idata.nvme_disk_count`. -/
def lib_azure_preset_chain (idata : IData) : Option IoPreset :=
  let nr := idata.nvme_disk_count
  if nr == 1 then some ⟨400000, 2000 * mbs, 271696, 1314 * mbs⟩
  else if nr == 2 then some ⟨800000, 4000 * mbs, 552434, 2478 * mbs⟩
  else if nr == 4 then some ⟨1500000, 8000 * mbs, 1105063, 4948 * mbs⟩
  else if nr == 6 then some ⟨2200000, 14000 * mbs, 1616847, 7892 * mbs⟩
  else if nr == 8 then some ⟨2900000, 16000 * mbs, 2208081, 9694 * mbs⟩
  else if nr == 10 then some ⟨3800000, 20000 * mbs, 2546511, 11998 * mbs⟩
  else none

/-- The `disk_properties` dict of a successful lib generator run. -/
structure DiskProps where
  mountpoint : String
  read_iops : Nat
  read_bandwidth : Nat
  write_iops : Nat
  write_bandwidth : Nat
deriving DecidableEq

/-- `aws_io_setup.generate` of lib/scylla_cloud_io_setup.py: the unsupported
check, then the preset chain, then the `"read_iops" in self.disk_properties`
miss check; both raise sites go through the broken `def`-declared names.
`datadir` models the `datadir()` mountpoint. -/
def lib_aws_generate (datadir : String) (idata : IData) : Except PyException DiskProps :=
  if ¬ idata.is_supported_instance_class then .error raisedUnsupportedInstanceClassError
  else
    match lib_aws_preset_chain idata with
    | some p => .ok ⟨datadir, p.read_iops, p.read_bandwidth, p.write_iops, p.write_bandwidth⟩
    | none => .error raisedPresetNotFoundError

/-- `gcp_io_setup.generate` of lib/scylla_cloud_io_setup.py. -/
def lib_gcp_generate (datadir : String) (idata : IData) : Except PyException DiskProps :=
  if ¬ idata.is_supported_instance_class then .error raisedUnsupportedInstanceClassError
  else
    match lib_gcp_preset_chain idata with
    | some p => .ok ⟨datadir, p.read_iops, p.read_bandwidth, p.write_iops, p.write_bandwidth⟩
    | none => .error raisedPresetNotFoundError

/-- `azure_io_setup.generate` of lib/scylla_cloud_io_setup.py. -/
def lib_azure_generate (datadir : String) (idata : IData) : Except PyException DiskProps :=
  if ¬ idata.is_supported_instance_class then .error raisedUnsupportedInstanceClassError
  else
    match lib_azure_preset_chain idata with
    | some p => .ok ⟨datadir, p.read_iops, p.read_bandwidth, p.write_iops, p.write_bandwidth⟩
    | none => .error raisedPresetNotFoundError

/-- C10: `UnsupportedInstanceClassError` and `PresetNotFoundError` are plain
functions (`def`), not exception classes, so `raise
UnsupportedInstanceClassError()` / `raise PresetNotFoundError()` actually
raise a `TypeError` (the zero-argument call fails to bind the required
parameter before the body runs); consequently every error a lib io-setup
generator surfaces is a `TypeError` and never an instance of an exception
class named after either condition, so a caller cannot catch these
conditions by their named exception type. -/
theorem io_setup_error_names_raise_type_error :
    (∀ bs, UnsupportedInstanceClassError_decl ≠ PyDecl.classDef bs)
    ∧ (∀ bs, PresetNotFoundError_decl ≠ PyDecl.classDef bs)
    ∧ raisedUnsupportedInstanceClassError
        = PyException.typeError "missing required positional argument"
    ∧ raisedPresetNotFoundError
        = PyException.typeError "missing required positional argument"
    ∧ (∀ c, raisedUnsupportedInstanceClassError ≠ PyException.userExc c)
    ∧ (∀ c, raisedPresetNotFoundError ≠ PyException.userExc c)
    ∧ (∀ dd idata e, lib_aws_generate dd idata = .error e → ∃ m, e = .typeError m)
    ∧ (∀ dd idata e, lib_gcp_generate dd idata = .error e → ∃ m, e = .typeError m)
    ∧ (∀ dd idata e, lib_azure_generate dd idata = .error e → ∃ m, e = .typeError m) := by
  refine ⟨fun bs => by simp [UnsupportedInstanceClassError_decl],
    fun bs => by simp [PresetNotFoundError_decl], rfl, rfl,
    fun c => by simp [raisedUnsupportedInstanceClassError, pyRaise, pyCallNoArgs,
      UnsupportedInstanceClassError_decl],
    fun c => by simp [raisedPresetNotFoundError, pyRaise, pyCallNoArgs,
      PresetNotFoundError_decl], ?_, ?_, ?_⟩
  · intro dd idata e h
    unfold lib_aws_generate at h
    split at h
    · injection h with he
      exact ⟨"missing required positional argument", by rw [← he]; rfl⟩
    · split at h
      · exact absurd h (by simp)
      · injection h with he
        exact ⟨"missing required positional argument", by rw [← he]; rfl⟩
  · intro dd idata e h
    unfold lib_gcp_generate at h
    split at h
    · injection h with he
      exact ⟨"missing required positional argument", by rw [← he]; rfl⟩
    · split at h
      · exact absurd h (by simp)
      · injection h with he
        exact ⟨"missing required positional argument", by rw [← he]; rfl⟩
  · intro dd idata e h
    unfold lib_azure_generate at h
    split at h
    · injection h with he
      exact ⟨"missing required positional argument", by rw [← he]; rfl⟩
    · split at h
      · exact absurd h (by simp)
      · injection h with he
        exact ⟨"missing required positional argument", by rw [← he]; rfl⟩

/-- An unsupported AWS instance for the lib generator (`t3.nano`). -/
def t3nanoIData : IData := ⟨"t3.nano", "t3", "nano", false, [], 0⟩

/-- A supported AWS instance (`i4i.large`, class in the supported list) with
no entry anywhere in the lib preset chain. -/
def i4iIData : IData := ⟨"i4i.large", "i4i", "large", true, ["nvme1n1"], 1⟩

/-- C10, witness: on an unsupported instance the lib generator surfaces the
`TypeError`, and on a supported instance missing from the chain it likewise
surfaces the `TypeError` (not a `PresetNotFoundError` instance). -/
theorem io_setup_error_names_raise_type_error_witness :
    lib_aws_generate "/var/lib/scylla" t3nanoIData
      = .error (PyException.typeError "missing required positional argument")
    ∧ lib_aws_generate "/var/lib/scylla" i4iIData
      = .error (PyException.typeError "missing required positional argument")
    ∧ (∃ m, PyException.typeError "missing required positional argument"
        = PyException.typeError m) :=
  ⟨by decide, by decide,
    io_setup_error_names_raise_type_error.2.2.2.2.2.2.1 "/var/lib/scylla" t3nanoIData
      (PyException.typeError "missing required positional argument") (by decide)⟩

theorem isPrefixOf_exists : ∀ l1 l2 : List Char, l1.isPrefixOf l2 = true → ∃ t, l2 = l1 ++ t
  | [], l2, _ => ⟨l2, rfl⟩
  | a :: as, [], h => by simp [List.isPrefixOf] at h
  | a :: as, b :: bs, h => by
    simp only [List.isPrefixOf, Bool.and_eq_true, beq_iff_eq] at h
    obtain ⟨t, ht⟩ := isPrefixOf_exists as bs h.2
    exact ⟨t, by rw [ht, h.1]; rfl⟩

theorem head_of_dev_pre {s : String} (h : "/dev/".data.isPrefixOf s.data = true) :
    s.data.head? = some '/' := by
  obtain ⟨t, ht⟩ := isPrefixOf_exists _ _ h
  rw [ht]
  rfl

theorem nvmeNameSpan_shape {l : List Char} (h : (nvmeNameSpan l).isSome = true) :
    ∃ rest, l = 'n' :: 'v' :: 'm' :: 'e' :: rest := by
  unfold nvmeNameSpan at h
  split at h
  · next rest => exact ⟨rest, rfl⟩
  · simp at h

theorem nvme_head {s : String} (h : nvmeMatches s = true) : s.data.head? = some 'n' := by
  obtain ⟨rest, hr⟩ := nvmeNameSpan_shape (l := s.data) (by simpa [nvmeMatches] using h)
  rw [hr]
  rfl

theorem nvmeController_head {s : String} (h : (nvmeController s).isSome = true) :
    s.data.head? = some 'n' := by
  obtain ⟨rest, hr⟩ := nvmeNameSpan_shape (l := s.data)
    (by simpa [nvmeController] using h)
  rw [hr]
  rfl

theorem sd_shape {s : String} (h : sdDiskMatches s = true) :
    ∃ rest, s.data = '/' :: 'd' :: 'e' :: 'v' :: '/' :: 's' :: 'd' :: rest := by
  unfold sdDiskMatches at h
  split at h
  · exact ⟨_, by assumption⟩
  · simp at h

theorem stripDev_data_of_pre {s : String} (h : "/dev/".data.isPrefixOf s.data = true) :
    (stripDev s).data = s.data.drop 5 := by
  unfold stripDev
  rw [if_pos h]

theorem sd_dev_pre {s : String} (h : sdDiskMatches s = true) :
    "/dev/".data.isPrefixOf s.data = true := by
  obtain ⟨rest, hr⟩ := sd_shape h
  rw [hr]
  rfl

theorem stripDev_sd_head {s : String} (h : sdDiskMatches s = true) :
    (stripDev s).data.head? = some 's' := by
  obtain ⟨rest, hr⟩ := sd_shape h
  rw [stripDev_data_of_pre (sd_dev_pre h), hr]
  rfl

theorem stripDev_inj {a b : String} (ha : "/dev/".data.isPrefixOf a.data = true)
    (hb : "/dev/".data.isPrefixOf b.data = true) (h : stripDev a = stripDev b) :
    a = b := by
  obtain ⟨ta, hta⟩ := isPrefixOf_exists _ _ ha
  obtain ⟨tb, htb⟩ := isPrefixOf_exists _ _ hb
  have hlit : "/dev/".data = ['/', 'd', 'e', 'v', '/'] := rfl
  rw [hlit] at hta htb
  have h1 : (stripDev a).data = ta := by rw [stripDev_data_of_pre ha, hta]; simp
  have h2 : (stripDev b).data = tb := by rw [stripDev_data_of_pre hb, htb]; simp
  have h3 : ta = tb := by rw [← h1, ← h2, h]
  have hd : a.data = b.data := by rw [hta, htb, h3]
  calc a = String.mk a.data := rfl
    _ = String.mk b.data := by rw [hd]
    _ = b := rfl

/-- No string appears in two lists whose members start with different
characters. -/
theorem not_mem_of_heads {A B : List String} {a b : Char} (hab : a ≠ b)
    (ha : ∀ x ∈ A, x.data.head? = some a) (hb : ∀ y ∈ B, y.data.head? = some b) :
    ∀ x, x ∈ A → x ∉ B := by
  intro x hxA hxB
  have := ha x hxA
  rw [hb x hxB] at this
  exact hab (by injection this with hh; exact hh.symm)

/-- A device name is classified by the GCP/OCI enumeration when it is a root
device, a listed NVMe namespace not overlapping the root, or the stripped
name of a globbed `sd[b-z]+` disk not overlapping the root; every other input
is excluded. -/
def gcpOciClassified (parts : List DiskPartition) (devListing sdGlob : List String)
    (x : String) : Prop :=
  x ∈ rootDevs parts
  ∨ (x ∈ devListing ∧ nvmeMatches x = true
      ∧ is_in_root_devs x (rootDevs parts) = false)
  ∨ ((∃ y, y ∈ sdGlob ∧ sdDiskMatches y = true ∧ stripDev y = x)
      ∧ is_in_root_devs x (rootDevs parts) = false)

/-- A device name is classified by the Azure enumeration when it is a root
device, a listed non-root NVMe namespace, the stripped name of a globbed
non-root `sd[b-z]+` disk other than the swap device, or the stripped swap
device name. -/
def azureClassified (parts : List DiskPartition) (devListing sdGlob : List String)
    (swap_dev : Option String) (x : String) : Prop :=
  x ∈ rootDevs parts
  ∨ (x ∈ devListing ∧ nvmeMatches x = true
      ∧ is_in_root_devs x (rootDevs parts) = false)
  ∨ (∃ y, y ∈ sdGlob ∧ sdDiskMatches y = true
      ∧ is_in_root_devs (stripDev y) (rootDevs parts) = false
      ∧ swap_dev ≠ some y ∧ stripDev y = x)
  ∨ (∃ s, swap_dev = some s ∧ s ≠ "" ∧ stripDev s = x)

/-- The root device `AwsInstance._non_root_nvmes` reports for the single root
partition candidate. -/
def aws_root_dev (cand : DiskPartition) (findmnt_root : String) : String :=
  if cand.device == "/dev/root" then findmnt_root else cand.device

theorem mem_rootDevs_head {parts : List DiskPartition}
    (hparts : ∀ d ∈ parts, "/dev/".data.isPrefixOf d.device.data = true) :
    ∀ x ∈ rootDevs parts, x.data.head? = some '/' := by
  intro x hx
  simp only [rootDevs, List.mem_map, List.mem_filter] at hx
  obtain ⟨p, ⟨hp, _⟩, rfl⟩ := hx
  exact head_of_dev_pre (hparts p hp)

theorem mem_eph_head {parts : List DiskPartition} {devListing : List String} :
    ∀ x ∈ (devListing.filter nvmeMatches).filter
        (fun y => !is_in_root_devs y (rootDevs parts)),
      x.data.head? = some 'n' := by
  intro x hx
  simp only [List.mem_filter] at hx
  exact nvme_head hx.1.2

theorem mem_eph_iff {parts : List DiskPartition} {devListing : List String} {x : String} :
    x ∈ (devListing.filter nvmeMatches).filter
        (fun y => !is_in_root_devs y (rootDevs parts))
      ↔ (x ∈ devListing ∧ nvmeMatches x = true
          ∧ is_in_root_devs x (rootDevs parts) = false) := by
  simp only [List.mem_filter, Bool.not_eq_true', and_assoc]

theorem mem_gcp_pers_head {parts : List DiskPartition} {sdGlob : List String} :
    ∀ x ∈ gcp_non_root_disks parts sdGlob, x.data.head? = some 's' := by
  intro x hx
  unfold gcp_non_root_disks at hx
  simp only [List.mem_filter, List.mem_map] at hx
  obtain ⟨⟨y, hy, rfl⟩, _⟩ := hx
  exact stripDev_sd_head hy.2

theorem mem_gcp_pers_iff {parts : List DiskPartition} {sdGlob : List String} {x : String} :
    x ∈ gcp_non_root_disks parts sdGlob
      ↔ ((∃ y, y ∈ sdGlob ∧ sdDiskMatches y = true ∧ stripDev y = x)
          ∧ is_in_root_devs x (rootDevs parts) = false) := by
  unfold gcp_non_root_disks
  simp only [List.mem_filter, List.mem_map]
  constructor
  · rintro ⟨⟨y, hy, rfl⟩, h2⟩
    exact ⟨⟨y, hy.1, hy.2, rfl⟩, by simpa using h2⟩
  · rintro ⟨⟨y, hy1, hy2, rfl⟩, h2⟩
    exact ⟨⟨y, ⟨hy1, hy2⟩, rfl⟩, by simpa using h2⟩

theorem azure_non_root_nvmes_ok_val {parts : List DiskPartition} {devListing : List String}
    {nv : NvmeBuckets} (h1 : azure_non_root_nvmes parts devListing = .ok nv) :
    nv = ⟨rootDevs parts, (devListing.filter nvmeMatches).filter
      (fun y => !is_in_root_devs y (rootDevs parts))⟩ := by
  unfold azure_non_root_nvmes at h1
  split at h1
  · exact absurd h1 (by simp)
  · injection h1 with h1
    exact h1.symm

theorem mem_azure_pers_iff {parts : List DiskPartition} {sdGlob : List String}
    {swap_dev : Option String} {x : String} :
    x ∈ (azure_non_root_disks parts sdGlob swap_dev).persistent
      ↔ ∃ y, y ∈ sdGlob ∧ sdDiskMatches y = true
          ∧ is_in_root_devs (stripDev y) (rootDevs parts) = false
          ∧ swap_dev ≠ some y ∧ stripDev y = x := by
  unfold azure_non_root_disks
  simp only [List.mem_map, List.mem_filter, Bool.and_eq_true, Bool.not_eq_true',
    bne_iff_ne, ne_eq]
  constructor
  · rintro ⟨y, ⟨⟨hy1, hy2⟩, hy3, hy4⟩, rfl⟩
    exact ⟨y, hy1, hy2, hy3, hy4, rfl⟩
  · rintro ⟨y, hy1, hy2, hy3, hy4, rfl⟩
    exact ⟨y, ⟨⟨hy1, hy2⟩, hy3, hy4⟩, rfl⟩

theorem mem_azure_pers_head {parts : List DiskPartition} {sdGlob : List String}
    {swap_dev : Option String} :
    ∀ x ∈ (azure_non_root_disks parts sdGlob swap_dev).persistent,
      x.data.head? = some 's' := by
  intro x hx
  obtain ⟨y, _, hy2, _, _, rfl⟩ := mem_azure_pers_iff.mp hx
  exact stripDev_sd_head hy2

theorem mem_azure_swap_iff {parts : List DiskPartition} {sdGlob : List String}
    {swap_dev : Option String} {x : String} :
    x ∈ (azure_non_root_disks parts sdGlob swap_dev).swap
      ↔ ∃ s, swap_dev = some s ∧ s ≠ "" ∧ stripDev s = x := by
  unfold azure_non_root_disks
  cases swap_dev with
  | none => simp
  | some s =>
    by_cases hs : s = ""
    · subst hs
      simp
    · simp only [beq_iff_eq, if_neg hs]
      simp [eq_comm, hs]

theorem aws_filter_controller {model : String → String} {dev t : String}
    (h : aws_filter_nvmes model dev t = true) : (nvmeController dev).isSome = true := by
  unfold aws_filter_nvmes at h
  cases hnc : nvmeController dev
  · rw [hnc] at h
    exact absurd h (by simp)
  · rfl

theorem aws_filter_not_both {model : String → String} {dev : String} :
    ¬(aws_filter_nvmes model dev "ephemeral" = true
      ∧ aws_filter_nvmes model dev "ebs" = true) := by
  rintro ⟨h1, h2⟩
  unfold aws_filter_nvmes at h1 h2
  cases hnc : nvmeController dev <;> rw [hnc] at h1 h2
  · simp at h1
  · dsimp only at h1 h2
    rw [if_pos (show (("ephemeral" : String) == "ephemeral") = true from rfl)] at h1
    rw [if_neg (show ¬((("ebs" : String) == "ephemeral") = true) from by decide)] at h2
    rw [h2] at h1
    simp at h1

theorem gcp_buckets_spec (parts : List DiskPartition) (devListing sdGlob : List String)
    (hparts : ∀ d ∈ parts, "/dev/".data.isPrefixOf d.device.data = true) :
    ∀ b, gcp_os_disks parts devListing sdGlob = .ok b →
      (∀ x, x ∈ b.root → x ∉ b.ephemeral)
      ∧ (∀ x, x ∈ b.root → x ∉ b.persistent)
      ∧ (∀ x, x ∈ b.ephemeral → x ∉ b.persistent)
      ∧ (∀ x, (x ∈ b.root ∨ x ∈ b.ephemeral ∨ x ∈ b.persistent)
          ↔ gcpOciClassified parts devListing sdGlob x) := by
  intro b hb
  have hval : gcp_os_disks parts devListing sdGlob
      = .ok ⟨rootDevs parts,
          (devListing.filter nvmeMatches).filter
            (fun y => !is_in_root_devs y (rootDevs parts)),
          gcp_non_root_disks parts sdGlob⟩ := rfl
  rw [hval] at hb
  injection hb with hb
  subst hb
  refine ⟨?_, ?_, ?_, ?_⟩
  · exact not_mem_of_heads (by decide) (mem_rootDevs_head hparts) mem_eph_head
  · exact not_mem_of_heads (by decide) (mem_rootDevs_head hparts) mem_gcp_pers_head
  · exact not_mem_of_heads (by decide) mem_eph_head mem_gcp_pers_head
  · intro x
    unfold gcpOciClassified
    rw [mem_eph_iff, mem_gcp_pers_iff]

theorem oci_buckets_spec (parts : List DiskPartition) (devListing sdGlob : List String)
    (hparts : ∀ d ∈ parts, "/dev/".data.isPrefixOf d.device.data = true) :
    ∀ b, oci_non_root_nvmes parts devListing = .ok b →
      (∀ x, x ∈ b.root → x ∉ b.ephemeral)
      ∧ (∀ x, x ∈ b.root → x ∉ oci_non_root_disks parts sdGlob)
      ∧ (∀ x, x ∈ b.ephemeral → x ∉ oci_non_root_disks parts sdGlob)
      ∧ (∀ x, (x ∈ b.root ∨ x ∈ b.ephemeral ∨ x ∈ oci_non_root_disks parts sdGlob)
          ↔ gcpOciClassified parts devListing sdGlob x) := by
  intro b hb
  have hval : oci_non_root_nvmes parts devListing
      = .ok ⟨rootDevs parts,
          (devListing.filter nvmeMatches).filter
            (fun y => !is_in_root_devs y (rootDevs parts))⟩ := rfl
  rw [hval] at hb
  injection hb with hb
  subst hb
  have hpers : oci_non_root_disks parts sdGlob = gcp_non_root_disks parts sdGlob := rfl
  rw [hpers]
  refine ⟨?_, ?_, ?_, ?_⟩
  · exact not_mem_of_heads (by decide) (mem_rootDevs_head hparts) mem_eph_head
  · exact not_mem_of_heads (by decide) (mem_rootDevs_head hparts) mem_gcp_pers_head
  · exact not_mem_of_heads (by decide) mem_eph_head mem_gcp_pers_head
  · intro x
    unfold gcpOciClassified
    rw [mem_eph_iff, mem_gcp_pers_iff]

theorem azure_buckets_spec (parts : List DiskPartition) (devListing sdGlob : List String)
    (swap_dev : Option String)
    (hparts : ∀ d ∈ parts, "/dev/".data.isPrefixOf d.device.data = true)
    (hswap : ∀ s, swap_dev = some s → "/dev/".data.isPrefixOf s.data = true
      ∧ nvmeMatches (stripDev s) = false
      ∧ "/dev/".data.isPrefixOf (stripDev s).data = false) :
    ∀ b, azure_os_disks parts devListing sdGlob swap_dev = .ok b →
      (∀ x, x ∈ b.root → x ∉ b.ephemeral)
      ∧ (∀ x, x ∈ b.root → x ∉ b.persistent)
      ∧ (∀ x, x ∈ b.root → x ∉ b.swap)
      ∧ (∀ x, x ∈ b.ephemeral → x ∉ b.persistent)
      ∧ (∀ x, x ∈ b.ephemeral → x ∉ b.swap)
      ∧ (∀ x, x ∈ b.persistent → x ∉ b.swap)
      ∧ (∀ x, (x ∈ b.root ∨ x ∈ b.ephemeral ∨ x ∈ b.persistent ∨ x ∈ b.swap)
          ↔ azureClassified parts devListing sdGlob swap_dev x) := by
  intro b hb
  unfold azure_os_disks at hb
  cases h1 : azure_non_root_nvmes parts devListing with
  | error e =>
    rw [h1] at hb
    exact absurd hb (by simp)
  | ok nv =>
    rw [h1] at hb
    dsimp only at hb
    injection hb with hb
    subst hb
    have hnv := azure_non_root_nvmes_ok_val h1
    subst hnv
    dsimp only
    have hroot : ∀ x ∈ rootDevs parts, "/dev/".data.isPrefixOf x.data = true := by
      intro x hx
      simp only [rootDevs, List.mem_map, List.mem_filter] at hx
      obtain ⟨p, ⟨hp, _⟩, rfl⟩ := hx
      exact hparts p hp
    refine ⟨?_, ?_, ?_, ?_, ?_, ?_, ?_⟩
    · exact not_mem_of_heads (by decide) (mem_rootDevs_head hparts) mem_eph_head
    · exact not_mem_of_heads (by decide) (mem_rootDevs_head hparts) mem_azure_pers_head
    · intro x hxr hxs
      obtain ⟨s, hs, _, rfl⟩ := mem_azure_swap_iff.mp hxs
      exact absurd (hroot _ hxr) (by rw [(hswap s hs).2.2]; decide)
    · exact not_mem_of_heads (by decide) mem_eph_head mem_azure_pers_head
    · intro x hxe hxs
      obtain ⟨s, hs, _, rfl⟩ := mem_azure_swap_iff.mp hxs
      have := (mem_eph_iff.mp hxe).2.1
      rw [(hswap s hs).2.1] at this
      exact absurd this (by decide)
    · intro x hxp hxs
      obtain ⟨y, _, hy2, _, hy4, rfl⟩ := mem_azure_pers_iff.mp hxp
      obtain ⟨s, hs, _, heq⟩ := mem_azure_swap_iff.mp hxs
      have hys : y = s := stripDev_inj (sd_dev_pre hy2) (hswap s hs).1 heq.symm
      rw [hys] at hy4
      exact hy4 hs
    · intro x
      unfold azureClassified
      rw [mem_eph_iff, mem_azure_pers_iff, mem_azure_swap_iff]

theorem aws_buckets_spec (parts : List DiskPartition) (devListing : List String)
    (model : String → String) (findmnt_root : String)
    (hparts : ∀ d ∈ parts, "/dev/".data.isPrefixOf d.device.data = true)
    (hfind : "/dev/".data.isPrefixOf findmnt_root.data = true) :
    ∀ cand b, parts.filter (fun p => p.mountpoint == "/") = [cand] →
      aws_non_root_nvmes parts devListing model findmnt_root = .ok b →
      b.root = [aws_root_dev cand findmnt_root]
      ∧ (∀ x, x ∈ b.root → x ∉ b.ephemeral)
      ∧ (∀ x, x ∈ b.root → x ∉ b.ebs)
      ∧ (∀ x, x ∈ b.ephemeral → x ∉ b.ebs)
      ∧ (∀ x, x ∈ b.ephemeral
          ↔ (x ∈ devListing ∧ aws_filter_nvmes model x "ephemeral" = true))
      ∧ (∀ x, x ∈ b.ebs ↔ (x ∈ devListing ∧ aws_filter_nvmes model x "ebs" = true
          ∧ ("/dev/" ++ x).data.isPrefixOf (aws_root_dev cand findmnt_root).data
              = false)) := by
  intro cand b hc hb
  unfold aws_non_root_nvmes at hb
  rw [hc] at hb
  dsimp only at hb
  injection hb with hb
  subst hb
  have hcand : cand ∈ parts := by
    have : cand ∈ parts.filter (fun p => p.mountpoint == "/") := by
      rw [hc]; exact List.mem_singleton_self cand
    exact (List.mem_filter.mp this).1
  have hrootpre : "/dev/".data.isPrefixOf (aws_root_dev cand findmnt_root).data = true := by
    unfold aws_root_dev
    split
    · exact hfind
    · exact hparts cand hcand
  have hroothead : ∀ x ∈ [aws_root_dev cand findmnt_root], x.data.head? = some '/' := by
    intro x hx
    rw [List.mem_singleton] at hx
    subst hx
    exact head_of_dev_pre hrootpre
  have hephhead : ∀ x ∈ devListing.filter (fun y => aws_filter_nvmes model y "ephemeral"),
      x.data.head? = some 'n' := by
    intro x hx
    exact nvmeController_head (aws_filter_controller (List.mem_filter.mp hx).2)
  have hebshead : ∀ x ∈ (devListing.filter (fun y => aws_filter_nvmes model y "ebs")).filter
      (fun y => !("/dev/" ++ y).data.isPrefixOf (aws_root_dev cand findmnt_root).data),
      x.data.head? = some 'n' := by
    intro x hx
    exact nvmeController_head
      (aws_filter_controller (List.mem_filter.mp (List.mem_filter.mp hx).1).2)
  refine ⟨rfl, ?_, ?_, ?_, ?_, ?_⟩
  · exact not_mem_of_heads (by decide) hroothead hephhead
  · exact not_mem_of_heads (by decide) hroothead hebshead
  · intro x hxe hxb
    exact aws_filter_not_both ⟨(List.mem_filter.mp hxe).2,
      (List.mem_filter.mp (List.mem_filter.mp hxb).1).2⟩
  · intro x
    exact List.mem_filter
  · intro x
    simp only [List.mem_filter, Bool.not_eq_true', and_assoc]
    exact Iff.rfl

/-- C7: for every provider variant, on any OS observation whose mounted
partitions, findmnt output and Azure swap device are well-formed `/dev`
paths (with the Azure swap resource being a non-NVMe device, as its fixed
`sd` resource-disk symlink guarantees — all of which hold for every fixture
in the repository's tests), the buckets produced by disk enumeration are
pairwise disjoint — no device name appears in more than one bucket — and
their union is exactly the set of classified input devices: the root
devices plus every input device passing the provider's classification
predicates, all other inputs being excluded. -/
theorem enumeration_buckets_disjoint_and_exact
    (parts : List DiskPartition) (devListing sdGlob : List String)
    (swap_dev : Option String) (model : String → String) (findmnt_root : String)
    (hparts : ∀ d ∈ parts, "/dev/".data.isPrefixOf d.device.data = true)
    (hfind : "/dev/".data.isPrefixOf findmnt_root.data = true)
    (hswap : ∀ s, swap_dev = some s → "/dev/".data.isPrefixOf s.data = true
      ∧ nvmeMatches (stripDev s) = false
      ∧ "/dev/".data.isPrefixOf (stripDev s).data = false) :
    (∀ b, gcp_os_disks parts devListing sdGlob = .ok b →
      (∀ x, x ∈ b.root → x ∉ b.ephemeral)
      ∧ (∀ x, x ∈ b.root → x ∉ b.persistent)
      ∧ (∀ x, x ∈ b.ephemeral → x ∉ b.persistent)
      ∧ (∀ x, (x ∈ b.root ∨ x ∈ b.ephemeral ∨ x ∈ b.persistent)
          ↔ gcpOciClassified parts devListing sdGlob x))
    ∧ (∀ b, oci_non_root_nvmes parts devListing = .ok b →
      (∀ x, x ∈ b.root → x ∉ b.ephemeral)
      ∧ (∀ x, x ∈ b.root → x ∉ oci_non_root_disks parts sdGlob)
      ∧ (∀ x, x ∈ b.ephemeral → x ∉ oci_non_root_disks parts sdGlob)
      ∧ (∀ x, (x ∈ b.root ∨ x ∈ b.ephemeral ∨ x ∈ oci_non_root_disks parts sdGlob)
          ↔ gcpOciClassified parts devListing sdGlob x))
    ∧ (∀ b, azure_os_disks parts devListing sdGlob swap_dev = .ok b →
      (∀ x, x ∈ b.root → x ∉ b.ephemeral)
      ∧ (∀ x, x ∈ b.root → x ∉ b.persistent)
      ∧ (∀ x, x ∈ b.root → x ∉ b.swap)
      ∧ (∀ x, x ∈ b.ephemeral → x ∉ b.persistent)
      ∧ (∀ x, x ∈ b.ephemeral → x ∉ b.swap)
      ∧ (∀ x, x ∈ b.persistent → x ∉ b.swap)
      ∧ (∀ x, (x ∈ b.root ∨ x ∈ b.ephemeral ∨ x ∈ b.persistent ∨ x ∈ b.swap)
          ↔ azureClassified parts devListing sdGlob swap_dev x))
    ∧ (∀ cand b, parts.filter (fun p => p.mountpoint == "/") = [cand] →
      aws_non_root_nvmes parts devListing model findmnt_root = .ok b →
      b.root = [aws_root_dev cand findmnt_root]
      ∧ (∀ x, x ∈ b.root → x ∉ b.ephemeral)
      ∧ (∀ x, x ∈ b.root → x ∉ b.ebs)
      ∧ (∀ x, x ∈ b.ephemeral → x ∉ b.ebs)
      ∧ (∀ x, x ∈ b.ephemeral
          ↔ (x ∈ devListing ∧ aws_filter_nvmes model x "ephemeral" = true))
      ∧ (∀ x, x ∈ b.ebs ↔ (x ∈ devListing ∧ aws_filter_nvmes model x "ebs" = true
          ∧ ("/dev/" ++ x).data.isPrefixOf (aws_root_dev cand findmnt_root).data
              = false))) :=
  ⟨gcp_buckets_spec parts devListing sdGlob hparts,
   oci_buckets_spec parts devListing sdGlob hparts,
   azure_buckets_spec parts devListing sdGlob swap_dev hparts hswap,
   aws_buckets_spec parts devListing model findmnt_root hparts hfind⟩

/-- The per-controller model map of the AWS i3en.2xlarge fixture
(tests/test_aws_instance.py): local instance storage on every controller. -/
def awsFixtureModel : String → String := fun _ => "Amazon EC2 NVMe Instance Storage"

/-- C7, witness: the theorem at the Standard_L16s_v2 fixture observation. -/
theorem enumeration_buckets_disjoint_and_exact_witness :
    (∀ d ∈ azureFixtureParts, "/dev/".data.isPrefixOf d.device.data = true)
    ∧ "/dev/".data.isPrefixOf ("/dev/nvme0n1p1" : String).data = true
    ∧ nvmeMatches (stripDev "/dev/sdb") = false
    ∧ ((∀ b, gcp_os_disks azureFixtureParts azureFixtureListing azureFixtureGlob = .ok b →
      (∀ x, x ∈ b.root → x ∉ b.ephemeral)
      ∧ (∀ x, x ∈ b.root → x ∉ b.persistent)
      ∧ (∀ x, x ∈ b.ephemeral → x ∉ b.persistent)
      ∧ (∀ x, (x ∈ b.root ∨ x ∈ b.ephemeral ∨ x ∈ b.persistent)
          ↔ gcpOciClassified azureFixtureParts azureFixtureListing azureFixtureGlob x))
    ∧ (∀ b, oci_non_root_nvmes azureFixtureParts azureFixtureListing = .ok b →
      (∀ x, x ∈ b.root → x ∉ b.ephemeral)
      ∧ (∀ x, x ∈ b.root → x ∉ oci_non_root_disks azureFixtureParts azureFixtureGlob)
      ∧ (∀ x, x ∈ b.ephemeral → x ∉ oci_non_root_disks azureFixtureParts azureFixtureGlob)
      ∧ (∀ x, (x ∈ b.root ∨ x ∈ b.ephemeral
            ∨ x ∈ oci_non_root_disks azureFixtureParts azureFixtureGlob)
          ↔ gcpOciClassified azureFixtureParts azureFixtureListing azureFixtureGlob x))
    ∧ (∀ b, azure_os_disks azureFixtureParts azureFixtureListing azureFixtureGlob
        (some "/dev/sdb") = .ok b →
      (∀ x, x ∈ b.root → x ∉ b.ephemeral)
      ∧ (∀ x, x ∈ b.root → x ∉ b.persistent)
      ∧ (∀ x, x ∈ b.root → x ∉ b.swap)
      ∧ (∀ x, x ∈ b.ephemeral → x ∉ b.persistent)
      ∧ (∀ x, x ∈ b.ephemeral → x ∉ b.swap)
      ∧ (∀ x, x ∈ b.persistent → x ∉ b.swap)
      ∧ (∀ x, (x ∈ b.root ∨ x ∈ b.ephemeral ∨ x ∈ b.persistent ∨ x ∈ b.swap)
          ↔ azureClassified azureFixtureParts azureFixtureListing azureFixtureGlob
              (some "/dev/sdb") x))
    ∧ (∀ cand b, azureFixtureParts.filter (fun p => p.mountpoint == "/") = [cand] →
      aws_non_root_nvmes azureFixtureParts azureFixtureListing awsFixtureModel
        "/dev/nvme0n1p1" = .ok b →
      b.root = [aws_root_dev cand "/dev/nvme0n1p1"]
      ∧ (∀ x, x ∈ b.root → x ∉ b.ephemeral)
      ∧ (∀ x, x ∈ b.root → x ∉ b.ebs)
      ∧ (∀ x, x ∈ b.ephemeral → x ∉ b.ebs)
      ∧ (∀ x, x ∈ b.ephemeral
          ↔ (x ∈ azureFixtureListing
              ∧ aws_filter_nvmes awsFixtureModel x "ephemeral" = true))
      ∧ (∀ x, x ∈ b.ebs ↔ (x ∈ azureFixtureListing
          ∧ aws_filter_nvmes awsFixtureModel x "ebs" = true
          ∧ ("/dev/" ++ x).data.isPrefixOf (aws_root_dev cand "/dev/nvme0n1p1").data
              = false)))) :=
  ⟨by decide, by decide, by decide,
    enumeration_buckets_disjoint_and_exact azureFixtureParts azureFixtureListing
      azureFixtureGlob (some "/dev/sdb") awsFixtureModel "/dev/nvme0n1p1"
      (by decide) (by decide)
      (by rintro s hs; injection hs with hs; subst hs; exact ⟨by decide, by decide, by decide⟩)⟩
